import Mathlib

/-!
Shallow embedding of the transaction-submission engine of EkoxAutoBot-NTE
(src/index.js) and proofs about its claims.

External collaborators (the ethers library, the JSON-RPC provider, the file
system, the random number generator) are modelled as explicit input
parameters: every chain read (pending transaction count, balances, fee data,
receipt status) and every external result (address validation, broadcast
result) is a field of an environment structure handed to the embedded
function.  JavaScript BigInt values are modelled as `Int` (or `Nat` for the
unsigned uint256 quantities); JavaScript falsiness of `0n`, `""`,
`undefined` is modelled explicitly where the source relies on it.
-/

namespace EkoxBot

/-- JavaScript `a || b` applied to an optional BigInt `a` (as in
`nonceTracker[nonceKey] || (pendingNonce - 1n)`, src/index.js line 328, and
`Number(config.x) || 1`, lines 82-84): an absent value and the BigInt `0n`
are both falsy, so the default is used for `none` and for `some 0`. -/
def jsOrInt (o : Option Int) (d : Int) : Int :=
  match o with
  | none => d
  | some v => if v = 0 then d else v

/-- JavaScript `a || b` on an optional unsigned BigInt (as in
`feeData.gasPrice || ethers.parseUnits("1", "gwei")`, line 351). -/
def jsOrNat (o : Option Nat) (d : Nat) : Nat :=
  match o with
  | none => d
  | some v => if v = 0 then d else v

/-- JavaScript truthiness of an optional BigInt field, as used in
`feeData.maxFeePerGas && feeData.maxPriorityFeePerGas` (line 343):
null/undefined and `0n` are falsy. -/
def jsTruthyFee (o : Option Nat) : Bool :=
  match o with
  | none => false
  | some v => v != 0

/-- Whether `needle` is an initial segment of `hay` (character lists). -/
def charListStarts : List Char → List Char → Bool
  | [], _ => true
  | _ :: _, [] => false
  | c :: cs, d :: ds => c == d && charListStarts cs ds

/-- Whether `needle` occurs contiguously somewhere in `hay` (character lists). -/
def charListHas (needle : List Char) : List Char → Bool
  | [] => needle.isEmpty
  | d :: ds => charListStarts needle (d :: ds) || charListHas needle ds

/-- JavaScript `s.includes(sub)` (as in `error.message.includes("nonce")`,
src/index.js line 455). -/
def strIncludes (s sub : String) : Bool :=
  charListHas sub.data s.data

/-- JavaScript `s.toLowerCase()` (as in `wallet.address.toLowerCase()`,
src/index.js line 413), computed on the underlying character list. -/
def lowerStr (s : String) : String :=
  String.mk (s.data.map Char.toLower)

/-- The global `nonceTracker` object (src/index.js line 52): a string-keyed
map to BigInt, modelled as an association list without duplicate keys. -/
abbrev Tracker := List (String × Int)

/-- Lookup `tracker[key]`, `none` when the property is absent. -/
def lookupTracker (k : String) : Tracker → Option Int
  | [] => none
  | (k', v) :: rest => if k' = k then some v else lookupTracker k rest

/-- Assignment `tracker[key] = v` (overwrites in place, appends when new,
matching JavaScript object insertion order). -/
def setTracker (k : String) (v : Int) : Tracker → Tracker
  | [] => [(k, v)]
  | (k', v') :: rest => if k' = k then (k, v) :: rest else (k', v') :: setTracker k v rest

/-- Deletion `delete tracker[key]` (src/index.js line 457). -/
def eraseTracker (k : String) : Tracker → Tracker
  | [] => []
  | (k', v) :: rest => if k' = k then eraseTracker k rest else (k', v) :: eraseTracker k rest

/-- The nonce-tracker key `` `${chainId}_${walletAddress}` `` (src/index.js
line 325): the raw chain id and the raw address string, with no case
normalization. -/
def nonceKey (chainId : Nat) (walletAddress : String) : String :=
  toString chainId ++ "_" ++ walletAddress

/-- Embeds `getNextNonce` (src/index.js lines 316-337).  `shouldStop` is the global
stop flag observed at entry; `addrValid` is the result of the external
`ethers.isAddress(walletAddress)` call; `pendingRes` is the result of the
external `provider.getTransactionCount(walletAddress, "pending")` call.
On success it returns the reserved nonce together with the updated tracker
(the reservation is recorded before returning); every failure path leaves
the tracker untouched. -/
def getNextNonce (shouldStop addrValid : Bool) (tracker : Tracker) (chainId : Nat)
    (walletAddress : String) (pendingRes : Except String Int) :
    Except String (Int × Tracker) :=
  if shouldStop then Except.error "Process stopped"
  else if addrValid = false then Except.error "Invalid wallet address"
  else
    match pendingRes with
    | Except.error e => Except.error e
    | Except.ok pendingNonce =>
      let key := nonceKey chainId walletAddress
      let lastUsedNonce := jsOrInt (lookupTracker key tracker) (pendingNonce - 1)
      let nextNonce := if pendingNonce > lastUsedNonce + 1 then pendingNonce else lastUsedNonce + 1
      Except.ok (nextNonce, setTracker key nextNonce tracker)

/-- The constant chain id `HOLESKY_CHAIN_ID` (src/index.js line 12). -/
def HOLESKY_CHAIN_ID : Nat := 17000

/-- Constant `STAKE_CONTRACT_ADDRESS` (src/index.js line 13). -/
def STAKE_CONTRACT_ADDRESS : String := "0x0c6A085e9d17A51DEA2A7e954ACcAb1429213B75"

/-- Constant `UNSTAKE_CONTRACT_ADDRESS` (src/index.js line 14). -/
def UNSTAKE_CONTRACT_ADDRESS : String := "0x3Cc99498dea7a164C9d6D02C7710FF63f36A60ed"

/-- Constant `CLAIM_CONTRACT_ADDRESS` (src/index.js line 15). -/
def CLAIM_CONTRACT_ADDRESS : String := "0x3Cc99498dea7a164C9d6D02C7710FF63f36A60ed"

/-- Constant `WETH_ADDRESS` (src/index.js line 16). -/
def WETH_ADDRESS : String := "0x94373a4919B3240D86eA41593D5eBa789FEF3848"

/-- Constant `EXETH_ADDRESS` (src/index.js line 17). -/
def EXETH_ADDRESS : String := "0xDD1ec7e2c5408aB7199302d481a1b77FdA0267A3"

/-- Value of `ethers.parseUnits("1", "gwei")` = 10^9 wei. -/
def oneGwei : Nat := 1000000000

/-- The fee data reported by the external `provider.getFeeData()` call:
each field is a BigInt or null. -/
structure FeeData where
  maxFeePerGas : Option Nat
  maxPriorityFeePerGas : Option Nat
  gasPrice : Option Nat
  deriving DecidableEq

/-- The `params` object built by `getFeeParams`: either EIP-1559 dynamic
fees (`type: 2`) or a legacy gas price (`type: 0`). -/
inductive FeeParams
  | dynamic (maxFeePerGas maxPriorityFeePerGas : Nat)
  | legacy (gasPrice : Nat)
  deriving DecidableEq

/-- Embeds `getFeeParams` (src/index.js lines 339-363).  `feeRes` is the result of
the external `provider.getFeeData()` call.  The source catches every query
error and falls back to a 1-gwei legacy default, so the embedding is total.
Note the JavaScript truthiness in `feeData.maxFeePerGas &&
feeData.maxPriorityFeePerGas` and `feeData.gasPrice || parseUnits("1",
"gwei")`: a reported `0n` behaves like an absent field. -/
def getFeeParams (feeRes : Except String FeeData) : FeeParams :=
  match feeRes with
  | Except.error _ => FeeParams.legacy oneGwei
  | Except.ok feeData =>
    if jsTruthyFee feeData.maxFeePerGas && jsTruthyFee feeData.maxPriorityFeePerGas then
      FeeParams.dynamic (feeData.maxFeePerGas.getD 0) (feeData.maxPriorityFeePerGas.getD 0)
    else
      FeeParams.legacy (jsOrNat feeData.gasPrice oneGwei)

/-- Evaluates `feeParams.gasPrice || feeParams.maxFeePerGas` (src/index.js lines 437,
512, 593, 665, 737): a legacy params object carries `gasPrice` (nonzero by
construction in `getFeeParams`, so the `||` keeps it); a dynamic params
object has no `gasPrice` property, so the `||` falls through to
`maxFeePerGas`. -/
def gasFeeOf : FeeParams → Nat
  | FeeParams.legacy gasPrice => gasPrice
  | FeeParams.dynamic maxFeePerGas _ => maxFeePerGas

/-- The calldata of a transaction the bot builds (`encodeFunctionData`
results, kept symbolic). -/
inductive TxData
  | approve (spender : String) (amount : Nat)
  | deposit (token : String) (amount : Nat)
  | withdraw (amount : Nat) (addr : String)
  | claimCall (index : Nat) (user : String)
  | wethDeposit
  | wethWithdraw (amount : Nat)
  deriving DecidableEq

/-- One `wallet.sendTransaction` call: destination, calldata, native value,
gas limit, nonce and fee parameters. -/
structure SentTx where
  toAddr : String
  data : TxData
  value : Nat
  gasLimit : Nat
  nonce : Int
  fee : FeeParams
  deriving DecidableEq

/-- The catch handler at src/index.js lines 453-460 (and its copies at
528-535, 609-616, 680-687, 753-760): when the caught error's text contains
"nonce", the tracker entry for `` `${chainId}_${address}` `` is deleted;
any other error leaves the tracker untouched.  The error is rethrown in
both cases. -/
def nonceErrorEvict (tracker : Tracker) (chainId : Nat) (address : String)
    (errMsg : String) : Tracker :=
  if strIncludes errMsg "nonce" then eraseTracker (nonceKey chainId address) tracker
  else tracker

/-- Environment of one `approveToken` call (src/index.js lines 365-405):
the global stop flag, the external `ethers.isAddress` result, the allowance
reported by the `provider.call` allowance read, the `getFeeData` result,
the pending count for the nonce fetch, the `wallet.sendTransaction` result
(hash or thrown error) and the `tx.wait()` result (receipt status or thrown
error). -/
structure ApproveEnv where
  shouldStop : Bool
  addrValid : Bool
  allowance : Nat
  feeData : Except String FeeData
  pending : Except String Int
  send : Except String String
  waitStatus : Except String Nat

/-- Embeds `approveToken` (src/index.js lines 365-405).  Returns the
success/thrown-error outcome, the list of `sendTransaction` calls actually
made, and the updated nonce tracker.  If the current allowance already
covers `amountWei` it returns immediately with no transaction; otherwise it
reserves a nonce keyed by the wallet's (checksummed) `wallet.address` on
the constant `HOLESKY_CHAIN_ID`, sends an `approve(spender, amountWei)`
transaction with the fixed gas limit 100000, and fails if the receipt
status is 0.  There is no catch: every error propagates and no tracker
entry is evicted here. -/
def approveToken (env : ApproveEnv) (tracker : Tracker) (walletAddr : String)
    (tokenAddr spender : String) (amountWei : Nat) :
    Except String Unit × List SentTx × Tracker :=
  if env.allowance ≥ amountWei then (Except.ok (), [], tracker)
  else
    let feeParams := getFeeParams env.feeData
    match getNextNonce env.shouldStop env.addrValid tracker HOLESKY_CHAIN_ID walletAddr env.pending with
    | Except.error e => (Except.error e, [], tracker)
    | Except.ok (nonce, t1) =>
      match env.send with
      | Except.error e => (Except.error e, [], t1)
      | Except.ok _hash =>
        let tx : SentTx := ⟨tokenAddr, TxData.approve spender amountWei, 0, 100000, nonce, feeParams⟩
        match env.waitStatus with
        | Except.error e => (Except.error e, [tx], t1)
        | Except.ok status =>
          if status = 0 then (Except.error "Approve transaction reverted", [tx], t1)
          else (Except.ok (), [tx], t1)

/-- Environment of the stake-specific part of one `performStake` call
(src/index.js lines 407-480): the WETH balance read, the ETH balance read,
the `getFeeData` result for the stake transaction, the pending count for
the stake nonce fetch, the stake `sendTransaction` result, and the
`Promise.race([tx.wait(), timeout])` result (receipt status, or the thrown
timeout/wait error). -/
structure StakeEnv where
  shouldStop : Bool
  addrValid : Bool
  wethBalance : Nat
  ethBalance : Nat
  feeData : Except String FeeData
  pending : Except String Int
  send : Except String String
  waitStatus : Except String Nat

/-- Embeds `performStake` (src/index.js lines 407-480).  `walletAddr` is the
wallet's checksummed `wallet.address`; the function lowercases it into
`address` (line 413) and uses the lowercased form for the balance reads,
the stake nonce fetch and the nonce-eviction key, while `approveToken`
receives the original `wallet` and keys its own nonce fetch by the
checksummed `wallet.address` (line 392).  Order of effects follows the
source: WETH balance check, approval, fee query, ETH gas check with the
fixed 650000 gas limit, then the try block around the stake nonce fetch and
broadcast whose catch evicts the tracker entry on a "nonce" error, then the
confirmation wait. -/
def performStake (env : StakeEnv) (aenv : ApproveEnv) (tracker : Tracker)
    (chainId : Nat) (walletAddr : String) (amountWei : Nat) :
    Except String Unit × List SentTx × Tracker :=
  let address := lowerStr walletAddr
  if env.wethBalance < amountWei then
    (Except.error "Insufficient WETH balance", [], tracker)
  else
    match approveToken aenv tracker walletAddr WETH_ADDRESS STAKE_CONTRACT_ADDRESS amountWei with
    | (Except.error e, txs, t) => (Except.error e, txs, t)
    | (Except.ok _, txs1, t1) =>
      let feeParams := getFeeParams env.feeData
      let gasFee := gasFeeOf feeParams
      let estimatedGasCost := gasFee * 650000
      if env.ethBalance < estimatedGasCost then
        (Except.error "Insufficient ETH for gas", txs1, t1)
      else
        match getNextNonce env.shouldStop env.addrValid t1 chainId address env.pending with
        | Except.error e => (Except.error e, txs1, nonceErrorEvict t1 chainId address e)
        | Except.ok (nonce, t2) =>
          match env.send with
          | Except.error e => (Except.error e, txs1, nonceErrorEvict t2 chainId address e)
          | Except.ok _hash =>
            let tx : SentTx := ⟨STAKE_CONTRACT_ADDRESS, TxData.deposit WETH_ADDRESS amountWei, 0, 650000, nonce, feeParams⟩
            match env.waitStatus with
            | Except.error e => (Except.error e, txs1 ++ [tx], t2)
            | Except.ok status =>
              if status = 0 then (Except.error "Transaction reverted", txs1 ++ [tx], t2)
              else (Except.ok (), txs1 ++ [tx], t2)

/-- Environment of one `performWrap` call (src/index.js lines 638-707). -/
structure WrapEnv where
  shouldStop : Bool
  addrValid : Bool
  ethBalance : Nat
  feeData : Except String FeeData
  pending : Except String Int
  send : Except String String
  waitStatus : Except String Nat

/-- Embeds `performWrap` (src/index.js lines 638-707): checks the native balance
against the wrap amount (line 650), then after the fee query checks the
same balance read against amount plus `gasFee * 100000` (line 667), and
only then reserves a nonce and sends the WETH `deposit()` transaction
carrying `amountWei` as native value with the fixed 100000 gas limit. -/
def performWrap (env : WrapEnv) (tracker : Tracker) (chainId : Nat)
    (walletAddr : String) (amountWei : Nat) :
    Except String Unit × List SentTx × Tracker :=
  let address := lowerStr walletAddr
  if env.ethBalance < amountWei then
    (Except.error "Insufficient ETH balance", [], tracker)
  else
    let feeParams := getFeeParams env.feeData
    let gasFee := gasFeeOf feeParams
    let estimatedGasCost := gasFee * 100000
    if env.ethBalance < amountWei + estimatedGasCost then
      (Except.error "Insufficient ETH for amount + gas", [], tracker)
    else
      match getNextNonce env.shouldStop env.addrValid tracker chainId address env.pending with
      | Except.error e => (Except.error e, [], nonceErrorEvict tracker chainId address e)
      | Except.ok (nonce, t1) =>
        match env.send with
        | Except.error e => (Except.error e, [], nonceErrorEvict t1 chainId address e)
        | Except.ok _hash =>
          let tx : SentTx := ⟨WETH_ADDRESS, TxData.wethDeposit, amountWei, 100000, nonce, feeParams⟩
          match env.waitStatus with
          | Except.error e => (Except.error e, [tx], t1)
          | Except.ok status =>
            if status = 0 then (Except.error "Transaction reverted", [tx], t1)
            else (Except.ok (), [tx], t1)

/-- Environment of one `performClaim` call (src/index.js lines 557-636):
the contract reads `getOutstandingWithdrawRequests`, `withdrawRequests(addr,
0).createdAt`, `coolDownPeriod`, the latest block timestamp, and the usual
balance/fee/nonce/send/wait results. -/
structure ClaimEnv where
  shouldStop : Bool
  addrValid : Bool
  outstandingCount : Nat
  createdAt : Nat
  coolDown : Nat
  blockTimestamp : Nat
  ethBalance : Nat
  feeData : Except String FeeData
  pending : Except String Int
  send : Except String String
  waitStatus : Except String Nat

/-- Embeds `performClaim` (src/index.js lines 557-636).  Fails with
"No outstanding withdraw requests" when the outstanding count is 0 (line
568); otherwise fails with "Not ready to claim yet" when
`createdAt + coolDown > now` (line 580, `now` the latest block timestamp);
only then queries fees, checks gas (650000 fixed limit), reserves a nonce
under the lowercased address and sends `claim(0, address)`. -/
def performClaim (env : ClaimEnv) (tracker : Tracker) (chainId : Nat)
    (walletAddr : String) :
    Except String Unit × List SentTx × Tracker :=
  let address := lowerStr walletAddr
  if env.outstandingCount = 0 then
    (Except.error "No outstanding withdraw requests", [], tracker)
  else if env.createdAt + env.coolDown > env.blockTimestamp then
    (Except.error "Not ready to claim yet", [], tracker)
  else
    let feeParams := getFeeParams env.feeData
    let gasFee := gasFeeOf feeParams
    let estimatedGasCost := gasFee * 650000
    if env.ethBalance < estimatedGasCost then
      (Except.error "Insufficient ETH for gas", [], tracker)
    else
      match getNextNonce env.shouldStop env.addrValid tracker chainId address env.pending with
      | Except.error e => (Except.error e, [], nonceErrorEvict tracker chainId address e)
      | Except.ok (nonce, t1) =>
        match env.send with
        | Except.error e => (Except.error e, [], nonceErrorEvict t1 chainId address e)
        | Except.ok _hash =>
          let tx : SentTx := ⟨CLAIM_CONTRACT_ADDRESS, TxData.claimCall 0 address, 0, 650000, nonce, feeParams⟩
          match env.waitStatus with
          | Except.error e => (Except.error e, [tx], t1)
          | Except.ok status =>
            if status = 0 then (Except.error "Transaction reverted", [tx], t1)
            else (Except.ok (), [tx], t1)

/-- The repetition-count fields of the persisted `config.json` document as
read back by `loadConfig`: each field is either a stored integer or absent. -/
structure StoredConfig where
  stakeRepetitions : Option Int
  unstakeRepetitions : Option Int
  claimRepetitions : Option Int

/-- The repetition-count part of `loadConfig` (src/index.js lines 82-84):
`dailyActivityConfig.x = Number(config.x) || 1`.  `Number(undefined)` is
`NaN` (falsy) and `0` is falsy, so both load as the default 1; any other
stored integer loads as itself. -/
def loadConfigReps (c : StoredConfig) : Int × Int × Int :=
  (jsOrInt c.stakeRepetitions 1, jsOrInt c.unstakeRepetitions 1, jsOrInt c.claimRepetitions 1)

/-- Split a character list at newline characters (JavaScript
`data.split("\n")`). -/
def splitLines : List Char → List (List Char)
  | [] => [[]]
  | c :: rest =>
    match splitLines rest with
    | [] => [[c]]
    | line :: more => if c = '\n' then [] :: line :: more else (c :: line) :: more

/-- A JavaScript whitespace character as far as `trim` is concerned (the
characters that can occur in a credential file). -/
def isWsChar (c : Char) : Bool :=
  c = ' ' || c = '\t' || c = '\r' || c = '\n'

/-- JavaScript `line.trim()` on a character list. -/
def trimChars (cs : List Char) : List Char :=
  ((cs.dropWhile isWsChar).reverse.dropWhile isWsChar).reverse

/-- The line parsing of `loadAccounts` (src/index.js line 189):
`data.split("\n").map(line => line.trim()).filter(line => line)` — an empty
trimmed line is falsy and dropped. -/
def parseAccounts (data : String) : List String :=
  ((((splitLines data.data).map trimChars).filter (fun l => !l.isEmpty)).map String.mk)

/-- Embeds `loadAccounts` (src/index.js lines 186-198).  `fileRead` is the result
of the external `fs.readFileSync("pk.txt", "utf8")` call (an error when the
file is missing).  An empty parsed list raises "No private keys found in
pk.txt", but the surrounding catch logs the error and sets `accounts = []`;
nothing is rethrown and the process is never exited here.  Returns the
resulting account list and whether the failure log line was emitted. -/
def loadAccounts (fileRead : Except String String) : List String × Bool :=
  match fileRead with
  | Except.error _ => ([], true)
  | Except.ok data =>
    let accounts := parseAccounts data
    if accounts.isEmpty then ([], true) else (accounts, false)

/-- Process-level outcome of a code path: either `process.exit(code)` was
reached or the process keeps running. -/
inductive ProcessOutcome
  | exits (code : Nat)
  | keepsRunning
  deriving DecidableEq

/-- Initialization: `initialize` (src/index.js lines 1930-1943) runs `loadConfig`,
`loadAccounts`, `loadProxies` and the UI refreshes inside a try/catch whose
handler only logs, and each of those loaders also catches internally; no
branch of initialization calls `process.exit`, so initialization always
leaves the process running, whatever the credential file read returned. -/
def initializeOutcome (fileRead : Except String String) : ProcessOutcome × List String :=
  (ProcessOutcome.keepsRunning, (loadAccounts fileRead).1)

/-- Whether a cycle start runs or aborts. -/
inductive CycleStart
  | abortedNoAccounts
  | started
  deriving DecidableEq

/-- The guard at the top of `runDailyActivity` (src/index.js lines
783-786): with an empty account list it logs "No valid accounts found." and
returns — the function exits early but the process keeps running. -/
def runDailyActivityGate (accounts : List String) : CycleStart :=
  if accounts.isEmpty then CycleStart.abortedNoAccounts else CycleStart.started

/-- The `dailyActivityConfig` run configuration (src/index.js lines 57-64).
Amount ranges are modelled as exact rationals (the claim scenarios use
values whose floating-point computation is exact). -/
structure RangeCfg where
  min : ℚ
  max : ℚ

/-- The mutable run configuration driving `runDailyActivity`. -/
structure DailyActivityConfig where
  stakeRepetitions : Nat
  unstakeRepetitions : Nat
  claimRepetitions : Nat
  wethStakeRange : RangeCfg
  exethUnstakeRange : RangeCfg
  loopHours : Nat

/-- One `Math.random()` draw, `0 ≤ r < 1`, supplied by the external RNG.
Each call site of `Math.random()` in the cycle reads its own entry of this
oracle, indexed by account and repetition. -/
structure RandomOracle where
  stakeAmount : Nat → Nat → ℚ
  unstakeAmount : Nat → Nat → ℚ
  stakeDelay : Nat → Nat → ℚ
  unstakeDelay : Nat → Nat → ℚ
  claimDelay : Nat → Nat → ℚ
  stakeToUnstakeDelay : Nat → ℚ
  unstakeToClaimDelay : Nat → ℚ

/-- Whether each perform* attempt succeeds (the thrown-or-not outcome of
the awaited operation, determined by the chain environment). -/
structure AttemptOutcomes where
  stakeOk : Nat → Nat → Bool
  unstakeOk : Nat → Nat → Bool
  claimOk : Nat → Nat → Bool

/-- The three operation kinds the daily cycle runs. -/
inductive OpKind
  | stake
  | unstake
  | claim
  deriving DecidableEq

/-- Observable events of one daily-activity cycle, in order: operation
attempts (amounts in units of 10^-4, the `toFixed(4)` display precision),
failure log lines, and sleeps. -/
inductive Event
  | stakeAttempt (account rep : Nat) (amountUnits : Int)
  | unstakeAttempt (account rep : Nat) (amountUnits : Int)
  | claimAttempt (account rep : Nat)
  | failLog (kind : OpKind) (account rep : Nat)
  | delayMs (ms : Nat)
  deriving DecidableEq

/-- Value of `(x).toFixed(4)` of a nonnegative amount, in units of 10^-4 (rounds to
nearest, as JavaScript does for these magnitudes). -/
def toFixed4Units (q : ℚ) : Int :=
  round (q * 10000)

/-- Draw `Math.random() * (range.max - range.min) + range.min` (src/index.js
lines 809, 832). -/
def randomInRange (r : ℚ) (c : RangeCfg) : ℚ :=
  r * (c.max - c.min) + c.min

/-- Delay `Math.floor(Math.random() * (15000 - 10000 + 1)) + 10000` (src/index.js
line 819 and copies): a random delay of 10000-15000 ms. -/
def randomDelayMs (r : ℚ) : Nat :=
  (Int.floor (r * 5001)).toNat + 10000

/-- The stake repetition loop of `runDailyActivity` (src/index.js lines
808-823) for one account, unrolled from iteration index `i` with
`remaining` iterations left: log and attempt the stake (a failure is logged
and the loop continues), then sleep a random 10-15 s delay unless this was
the last repetition.  The cycle-stop flag is false throughout (no stop
requested). -/
def stakeLoopAux (cfg : DailyActivityConfig) (ro : RandomOracle)
    (oc : AttemptOutcomes) (account : Nat) : Nat → Nat → List Event
  | _, 0 => []
  | i, remaining + 1 =>
    Event.stakeAttempt account i
        (toFixed4Units (randomInRange (ro.stakeAmount account i) cfg.wethStakeRange)) ::
      ((if oc.stakeOk account i then [] else [Event.failLog OpKind.stake account i]) ++
       (if i < cfg.stakeRepetitions - 1 then
          [Event.delayMs (randomDelayMs (ro.stakeDelay account i))] else []) ++
       stakeLoopAux cfg ro oc account (i + 1) remaining)

/-- The unstake repetition loop (src/index.js lines 831-846). -/
def unstakeLoopAux (cfg : DailyActivityConfig) (ro : RandomOracle)
    (oc : AttemptOutcomes) (account : Nat) : Nat → Nat → List Event
  | _, 0 => []
  | i, remaining + 1 =>
    Event.unstakeAttempt account i
        (toFixed4Units (randomInRange (ro.unstakeAmount account i) cfg.exethUnstakeRange)) ::
      ((if oc.unstakeOk account i then [] else [Event.failLog OpKind.unstake account i]) ++
       (if i < cfg.unstakeRepetitions - 1 then
          [Event.delayMs (randomDelayMs (ro.unstakeDelay account i))] else []) ++
       unstakeLoopAux cfg ro oc account (i + 1) remaining)

/-- The claim repetition loop (src/index.js lines 854-868). -/
def claimLoopAux (cfg : DailyActivityConfig) (ro : RandomOracle)
    (oc : AttemptOutcomes) (account : Nat) : Nat → Nat → List Event
  | _, 0 => []
  | i, remaining + 1 =>
    Event.claimAttempt account i ::
      ((if oc.claimOk account i then [] else [Event.failLog OpKind.claim account i]) ++
       (if i < cfg.claimRepetitions - 1 then
          [Event.delayMs (randomDelayMs (ro.claimDelay account i))] else []) ++
       claimLoopAux cfg ro oc account (i + 1) remaining)

/-- One account's slice of `runDailyActivity` (src/index.js lines 795-868):
the stake loop, a random delay if both stake and unstake repetitions are
positive (line 825), the unstake loop, a random delay if both unstake and
claim repetitions are positive (line 848), then the claim loop. -/
def accountEvents (cfg : DailyActivityConfig) (ro : RandomOracle)
    (oc : AttemptOutcomes) (account : Nat) : List Event :=
  stakeLoopAux cfg ro oc account 0 cfg.stakeRepetitions ++
  (if 0 < cfg.stakeRepetitions ∧ 0 < cfg.unstakeRepetitions then
     [Event.delayMs (randomDelayMs (ro.stakeToUnstakeDelay account))] else []) ++
  unstakeLoopAux cfg ro oc account 0 cfg.unstakeRepetitions ++
  (if 0 < cfg.unstakeRepetitions ∧ 0 < cfg.claimRepetitions then
     [Event.delayMs (randomDelayMs (ro.unstakeToClaimDelay account))] else []) ++
  claimLoopAux cfg ro oc account 0 cfg.claimRepetitions

/-- The account loop of `runDailyActivity` (src/index.js lines 795-874),
unrolled from `account` with `remaining` accounts left: process the
account's repetitions, then a fixed 10-second sleep before the next account
(line 870-873, only when another account follows). -/
def runDailyActivityAux (numAccounts : Nat) (cfg : DailyActivityConfig)
    (ro : RandomOracle) (oc : AttemptOutcomes) : Nat → Nat → List Event
  | _, 0 => []
  | account, remaining + 1 =>
    accountEvents cfg ro oc account ++
    (if account < numAccounts - 1 then [Event.delayMs 10000] else []) ++
    runDailyActivityAux numAccounts cfg ro oc (account + 1) remaining

/-- The event trace of one full daily-activity cycle over `numAccounts`
wallets in registration order, with no stop requested (src/index.js lines
782-874). -/
def runDailyActivity (numAccounts : Nat) (cfg : DailyActivityConfig)
    (ro : RandomOracle) (oc : AttemptOutcomes) : List Event :=
  runDailyActivityAux numAccounts cfg ro oc 0 numAccounts

/-! ### Concrete environments used as test inputs -/

/-- Fee data with all fields null: `getFeeParams` falls back to the 1-gwei
legacy default. -/
def nullFeeData : FeeData := ⟨none, none, none⟩

/-- Approve environment for a broadcast-failure scenario: allowance 10
(so an approval of 5 is skipped). -/
def approveEnvC2 : ApproveEnv :=
  ⟨false, true, 10, Except.ok nullFeeData, Except.ok 3, Except.ok "0xaaaa", Except.ok 1⟩

/-- Stake environment whose broadcast throws a nonce-conflict error. -/
def stakeEnvC2 : StakeEnv :=
  ⟨false, true, 10, 1000000000000000, Except.ok nullFeeData, Except.ok 3,
    Except.error "nonce has already been used", Except.ok 1⟩

/-- Stake environment whose broadcast throws an unrelated error. -/
def stakeEnvC2b : StakeEnv :=
  ⟨false, true, 10, 1000000000000000, Except.ok nullFeeData, Except.ok 3,
    Except.error "insufficient funds for gas", Except.ok 1⟩

/-- Claim environment at the cooldown boundary: one outstanding request,
`createdAt = 100`, `coolDown = 50`, latest block timestamp 150. -/
def claimEnvC3 : ClaimEnv :=
  ⟨false, true, 1, 100, 50, 150, 1000000000000000, Except.ok nullFeeData,
    Except.ok 4, Except.ok "0xcccc", Except.ok 1⟩

/-- Same claim environment one second before the boundary (timestamp 149). -/
def claimEnvC3b : ClaimEnv :=
  ⟨false, true, 1, 100, 50, 149, 1000000000000000, Except.ok nullFeeData,
    Except.ok 4, Except.ok "0xcccc", Except.ok 1⟩

/-- Same claim environment with no outstanding withdraw requests. -/
def claimEnvC3c : ClaimEnv :=
  ⟨false, true, 0, 100, 50, 150, 1000000000000000, Except.ok nullFeeData,
    Except.ok 4, Except.ok "0xcccc", Except.ok 1⟩

/-- Approve environment with current allowance 3. -/
def approveEnvC4 : ApproveEnv :=
  ⟨false, true, 3, Except.ok nullFeeData, Except.ok 2, Except.ok "0xdddd", Except.ok 1⟩

/-- Stake environment at the exact balance boundaries: WETH balance 5 for a
stake of 5, and ETH balance exactly 1 gwei times the 650000 gas limit. -/
def stakeEnvC6 : StakeEnv :=
  ⟨false, true, 5, 650000000000000, Except.ok nullFeeData, Except.ok 2,
    Except.ok "0xeeee", Except.ok 1⟩

/-- Approve environment with allowance 5 (approval skipped for amount 5). -/
def approveEnvC6 : ApproveEnv :=
  ⟨false, true, 5, Except.ok nullFeeData, Except.ok 2, Except.ok "0xeee2", Except.ok 1⟩

/-- Wrap environment at the exact combined boundary: ETH balance equals the
wrap amount 5 plus 1 gwei times the 100000 gas limit. -/
def wrapEnvC6 : WrapEnv :=
  ⟨false, true, 100000000000005, Except.ok nullFeeData, Except.ok 2,
    Except.ok "0xeee3", Except.ok 1⟩

/-- Wrap environment one wei below the combined boundary. -/
def wrapEnvC6b : WrapEnv :=
  ⟨false, true, 100000000000004, Except.ok nullFeeData, Except.ok 2,
    Except.ok "0xeee3", Except.ok 1⟩

/-- Approve environment for the case-sensitivity run: allowance 0 forces an
approval, and the chain reports pending count 7. -/
def approveEnvC10 : ApproveEnv :=
  ⟨false, true, 0, Except.ok nullFeeData, Except.ok 7, Except.ok "0xff01", Except.ok 1⟩

/-- Stake environment for the case-sensitivity run: ample balances, and the
chain still reports pending count 7 for the stake nonce fetch. -/
def stakeEnvC10 : StakeEnv :=
  ⟨false, true, 100, 1000000000000000, Except.ok nullFeeData, Except.ok 7,
    Except.ok "0xff02", Except.ok 1⟩

/-! ### Helper lemmas -/

theorem lookupTracker_set_self (k : String) (v : Int) (t : Tracker) :
    lookupTracker k (setTracker k v t) = some v := by
  induction t with
  | nil => simp [setTracker, lookupTracker]
  | cons hd tl ih =>
    obtain ⟨k', v'⟩ := hd
    by_cases h : k' = k
    · simp [setTracker, h, lookupTracker]
    · simp [setTracker, h, lookupTracker, ih]

theorem lookupTracker_erase_self (k : String) (t : Tracker) :
    lookupTracker k (eraseTracker k t) = none := by
  induction t with
  | nil => simp [eraseTracker, lookupTracker]
  | cons hd tl ih =>
    obtain ⟨k', v'⟩ := hd
    by_cases h : k' = k
    · simp [eraseTracker, h, ih]
    · simp [eraseTracker, h, lookupTracker, ih]

theorem toFixed4Units_const (r q : ℚ) :
    toFixed4Units (randomInRange r ⟨q, q⟩) = round (q * 10000) := by
  simp [toFixed4Units, randomInRange]

/-! ### Claim C1 -/

/-- Claim C1, counterexample.  On a fresh address (chain-reported pending
count 0, empty tracker) the first `getNextNonce` call returns nonce 0 and
records it, but the recorded `0n` is falsy in the JavaScript lookup
`nonceTracker[nonceKey] || (pendingNonce - 1n)` (src/index.js line 328), so
the second sequential call treats the entry as absent and returns 0 again
instead of the claimed first value plus 1 — even though the chain-reported
pending count (0) does not exceed it. -/
theorem c1_counterexample_zero_nonce :
    getNextNonce false true [] 17000 "0xaa" (Except.ok 0) =
      Except.ok (0, [(nonceKey 17000 "0xaa", 0)]) ∧
    getNextNonce false true [(nonceKey 17000 "0xaa", 0)] 17000 "0xaa" (Except.ok 0) =
      Except.ok (0, [(nonceKey 17000 "0xaa", 0)]) ∧
    (getNextNonce false true [(nonceKey 17000 "0xaa", 0)] 17000 "0xaa"
        (Except.ok 0)).map Prod.fst ≠ Except.ok (0 + 1) := by
  refine ⟨rfl, rfl, ?_⟩
  intro h
  rw [show getNextNonce false true [(nonceKey 17000 "0xaa", 0)] 17000 "0xaa" (Except.ok 0) =
      Except.ok (0, [(nonceKey 17000 "0xaa", 0)]) from rfl] at h
  simp [Except.map] at h

/-- Claim C1 (amended): two sequential `getNextNonce` calls with no
eviction in between return values differing by exactly 1, provided the
first returned (and recorded) value is nonzero — a recorded 0 is treated as
absent by the falsy lookup — and the second chain-reported pending count
does not exceed the first value plus 1.  The first call records its value
under the `chainId_address` key before returning. -/
theorem c1_amended_sequential_reserve (tracker : Tracker) (chainId : Nat)
    (walletAddress : String) (p1 p2 v1 : Int) (t1 : Tracker)
    (h1 : getNextNonce false true tracker chainId walletAddress (Except.ok p1) =
      Except.ok (v1, t1))
    (hv : v1 ≠ 0) (hp : p2 ≤ v1 + 1) :
    lookupTracker (nonceKey chainId walletAddress) t1 = some v1 ∧
    getNextNonce false true t1 chainId walletAddress (Except.ok p2) =
      Except.ok (v1 + 1, setTracker (nonceKey chainId walletAddress) (v1 + 1) t1) := by
  simp [getNextNonce] at h1
  obtain ⟨hval, ht⟩ := h1
  have hrec : lookupTracker (nonceKey chainId walletAddress) t1 = some v1 := by
    rw [← ht, ← hval]
    exact lookupTracker_set_self _ _ _
  refine ⟨hrec, ?_⟩
  have hgt : ¬ (p2 > v1 + 1) := not_lt.mpr hp
  simp [getNextNonce, hrec, jsOrInt, hv, hgt]

/-- Claim C1 witness: a concrete instantiation of the amended theorem with
a tracker entry 5 and chain-reported pending count 5: the second call
returns 6 = 5 + 1. -/
theorem c1_witness :
    lookupTracker (nonceKey 17000 "0xaa") [(nonceKey 17000 "0xaa", 5)] = some 5 ∧
    getNextNonce false true [(nonceKey 17000 "0xaa", 5)] 17000 "0xaa" (Except.ok 5) =
      Except.ok (6, setTracker (nonceKey 17000 "0xaa") 6 [(nonceKey 17000 "0xaa", 5)]) :=
  c1_amended_sequential_reserve [] 17000 "0xaa" 5 5 5 [(nonceKey 17000 "0xaa", 5)]
    rfl (by decide) (by decide)

/-! ### Claim C2 -/

/-- Claim C2: when the stake broadcast fails, `performStake` propagates the
error; if the error text contains "nonce" the tracker entry for the
`chainId_lowercasedAddress` key (the key the stake nonce was reserved
under) is deleted, otherwise the tracker is exactly the post-reservation
tracker, unchanged by the handler.  Stated on the path where the allowance
already covers the amount (no approval transaction) and all preceding
checks pass. -/
theorem c2_broadcast_error_eviction (env : StakeEnv) (aenv : ApproveEnv)
    (tracker : Tracker) (chainId : Nat) (walletAddr : String)
    (amountWei : Nat) (p : Int) (msg : String)
    (hw : amountWei ≤ env.wethBalance)
    (ha : amountWei ≤ aenv.allowance)
    (hg : gasFeeOf (getFeeParams env.feeData) * 650000 ≤ env.ethBalance)
    (hstop : env.shouldStop = false)
    (hvalid : env.addrValid = true)
    (hpend : env.pending = Except.ok p)
    (hsend : env.send = Except.error msg) :
    performStake env aenv tracker chainId walletAddr amountWei =
      (Except.error msg, [],
        let key := nonceKey chainId (lowerStr walletAddr)
        let lastUsedNonce := jsOrInt (lookupTracker key tracker) (p - 1)
        let nextNonce := if p > lastUsedNonce + 1 then p else lastUsedNonce + 1
        let reserved := setTracker key nextNonce tracker
        if strIncludes msg "nonce" then eraseTracker key reserved else reserved) ∧
    (strIncludes msg "nonce" = true →
      lookupTracker (nonceKey chainId (lowerStr walletAddr))
        (performStake env aenv tracker chainId walletAddr amountWei).2.2 = none) := by
  have hw' : ¬ (env.wethBalance < amountWei) := not_lt.mpr hw
  have hg' : ¬ (env.ethBalance < gasFeeOf (getFeeParams env.feeData) * 650000) :=
    not_lt.mpr hg
  have hmain : performStake env aenv tracker chainId walletAddr amountWei =
      (Except.error msg, [],
        let key := nonceKey chainId (lowerStr walletAddr)
        let lastUsedNonce := jsOrInt (lookupTracker key tracker) (p - 1)
        let nextNonce := if p > lastUsedNonce + 1 then p else lastUsedNonce + 1
        let reserved := setTracker key nextNonce tracker
        if strIncludes msg "nonce" then eraseTracker key reserved else reserved) := by
    simp [performStake, approveToken, getNextNonce, nonceErrorEvict, ha, hw', hg',
      hstop, hvalid, hpend, hsend]
  refine ⟨hmain, fun hnonce => ?_⟩
  rw [hmain]
  simp only [hnonce, if_true]
  exact lookupTracker_erase_self _ _

/-- Claim C2 witness: concrete runs of `performStake` whose broadcast
fails, once with a "nonce"-bearing error (tracker entry evicted: the key
was reserved at nonce 3 and is gone afterwards) and once with an unrelated
error (post-reservation tracker kept as is). -/
theorem c2_witness :
    (performStake stakeEnvC2 approveEnvC2 [] 17000 "0xAb" 5 =
      (Except.error "nonce has already been used", [],
        let key := nonceKey 17000 (lowerStr "0xAb")
        let lastUsedNonce := jsOrInt (lookupTracker key ([] : Tracker)) (3 - 1)
        let nextNonce := if (3 : Int) > lastUsedNonce + 1 then 3 else lastUsedNonce + 1
        let reserved := setTracker key nextNonce []
        if strIncludes "nonce has already been used" "nonce" then eraseTracker key reserved
        else reserved) ∧
     (strIncludes "nonce has already been used" "nonce" = true →
       lookupTracker (nonceKey 17000 (lowerStr "0xAb"))
         (performStake stakeEnvC2 approveEnvC2 [] 17000 "0xAb" 5).2.2 = none)) ∧
    (performStake stakeEnvC2b approveEnvC2 [] 17000 "0xAb" 5 =
      (Except.error "insufficient funds for gas", [],
        let key := nonceKey 17000 (lowerStr "0xAb")
        let lastUsedNonce := jsOrInt (lookupTracker key ([] : Tracker)) (3 - 1)
        let nextNonce := if (3 : Int) > lastUsedNonce + 1 then 3 else lastUsedNonce + 1
        let reserved := setTracker key nextNonce []
        if strIncludes "insufficient funds for gas" "nonce" then eraseTracker key reserved
        else reserved) ∧
     (strIncludes "insufficient funds for gas" "nonce" = true →
       lookupTracker (nonceKey 17000 (lowerStr "0xAb"))
         (performStake stakeEnvC2b approveEnvC2 [] 17000 "0xAb" 5).2.2 = none)) :=
  ⟨c2_broadcast_error_eviction stakeEnvC2 approveEnvC2 [] 17000 "0xAb" 5 3
      "nonce has already been used" (by decide) (by decide) (by decide) rfl rfl rfl rfl,
   c2_broadcast_error_eviction stakeEnvC2b approveEnvC2 [] 17000 "0xAb" 5 3
      "insufficient funds for gas" (by decide) (by decide) (by decide) rfl rfl rfl rfl⟩

/-! ### Claim C3 -/

/-- Claim C3: `performClaim` fails with the no-withdraw-request error
exactly when the outstanding count is zero; otherwise it fails with the
not-ready error exactly when `createdAt + coolDown` strictly exceeds the
latest block timestamp; whenever either precondition fails no transaction
is sent; and at the inclusive boundary `createdAt + coolDown = now` (with
sufficient gas balance) the claim proceeds to fee estimation and submits
the `claim(0, address)` transaction.  Stated on an environment whose
external broadcast and confirmation succeed. -/
theorem c3_claim_preconditions (env : ClaimEnv) (tracker : Tracker)
    (chainId : Nat) (walletAddr : String) (p : Int) (hash : String)
    (hstop : env.shouldStop = false)
    (hvalid : env.addrValid = true)
    (hpend : env.pending = Except.ok p)
    (hsend : env.send = Except.ok hash)
    (hwait : env.waitStatus = Except.ok 1) :
    ((performClaim env tracker chainId walletAddr).1 =
        Except.error "No outstanding withdraw requests" ↔ env.outstandingCount = 0) ∧
    (env.outstandingCount ≠ 0 →
      ((performClaim env tracker chainId walletAddr).1 =
          Except.error "Not ready to claim yet" ↔
        env.blockTimestamp < env.createdAt + env.coolDown)) ∧
    (env.outstandingCount = 0 ∨ env.blockTimestamp < env.createdAt + env.coolDown →
      (performClaim env tracker chainId walletAddr).2.1 = []) ∧
    (env.outstandingCount ≠ 0 → env.createdAt + env.coolDown ≤ env.blockTimestamp →
      gasFeeOf (getFeeParams env.feeData) * 650000 ≤ env.ethBalance →
      (performClaim env tracker chainId walletAddr).1 = Except.ok () ∧
      ((performClaim env tracker chainId walletAddr).2.1.map
          (fun tx => (tx.toAddr, tx.data, tx.gasLimit))) =
        [(CLAIM_CONTRACT_ADDRESS, TxData.claimCall 0 (lowerStr walletAddr), 650000)]) := by
  by_cases hc : env.outstandingCount = 0
  · refine ⟨by simp [performClaim, hc], fun h => absurd hc h, ?_, fun h => absurd hc h⟩
    intro _
    simp [performClaim, hc]
  · by_cases ht : env.createdAt + env.coolDown > env.blockTimestamp
    · refine ⟨?_, fun _ => ?_, ?_, ?_⟩
      · simp [performClaim, hc, ht]
      · simp [performClaim, hc, ht]
      · intro _
        simp [performClaim, hc, ht]
      · intro _ hle
        exact absurd ht (not_lt.mpr hle)
    · have hle : env.createdAt + env.coolDown ≤ env.blockTimestamp := not_lt.mp ht
      by_cases hgas : env.ethBalance < gasFeeOf (getFeeParams env.feeData) * 650000
      · refine ⟨by simp [performClaim, hc, ht, hgas], fun _ => ?_, ?_, fun _ _ hg => ?_⟩
        · simp [performClaim, hc, ht, hgas]
        · rintro (h | h)
          · exact absurd h hc
          · exact absurd h ht
        · exact absurd hgas (not_lt.mpr hg)
      · refine ⟨?_, fun _ => ?_, ?_, fun _ _ _ => ?_⟩
        · simp [performClaim, getNextNonce, hc, ht, hgas, hstop, hvalid, hpend, hsend, hwait]
        · simp [performClaim, getNextNonce, hc, ht, hgas, hstop, hvalid, hpend, hsend, hwait]
        · rintro (h | h)
          · exact absurd h hc
          · exact absurd h ht
        · constructor
          · simp [performClaim, getNextNonce, hc, ht, hgas, hstop, hvalid, hpend, hsend, hwait]
          · simp [performClaim, getNextNonce, hc, ht, hgas, hstop, hvalid, hpend, hsend, hwait]

/-- Claim C3 witness: the theorem applied at the spec's concrete boundary
scenarios — `createdAt = 100, coolDown = 50`: at `now = 150` the claim
proceeds and submits; at `now = 149` it raises the not-ready error; with
zero outstanding requests it raises the no-withdraw-request error. -/
theorem c3_witness :
    ((performClaim claimEnvC3 [] 17000 "0xAb").1 = Except.ok () ∧
      ((performClaim claimEnvC3 [] 17000 "0xAb").2.1.map
          (fun tx => (tx.toAddr, tx.data, tx.gasLimit))) =
        [(CLAIM_CONTRACT_ADDRESS, TxData.claimCall 0 (lowerStr "0xAb"), 650000)]) ∧
    (performClaim claimEnvC3b [] 17000 "0xAb").1 = Except.error "Not ready to claim yet" ∧
    (performClaim claimEnvC3b [] 17000 "0xAb").2.1 = [] ∧
    (performClaim claimEnvC3c [] 17000 "0xAb").1 =
      Except.error "No outstanding withdraw requests" :=
  ⟨(c3_claim_preconditions claimEnvC3 [] 17000 "0xAb" 4 "0xcccc" rfl rfl rfl rfl rfl).2.2.2
      (by decide) (by decide) (by decide),
   ((c3_claim_preconditions claimEnvC3b [] 17000 "0xAb" 4 "0xcccc" rfl rfl rfl rfl rfl).2.1
      (by decide)).mpr (by decide),
   (c3_claim_preconditions claimEnvC3b [] 17000 "0xAb" 4 "0xcccc" rfl rfl rfl rfl rfl).2.2.1
      (Or.inr (by decide)),
   (c3_claim_preconditions claimEnvC3c [] 17000 "0xAb" 4 "0xcccc" rfl rfl rfl rfl rfl).1.mpr
      (by decide)⟩

/-! ### Claim C4 -/

/-- Claim C4: `approveToken` sends zero transactions and returns
immediately when the current allowance already covers the requested amount
(inclusive at equality), and sends exactly one approval when the allowance
is below it; that single approval is `approve(spender, amountWei)` for
exactly the requested amount (not unlimited) with the fixed 100000 approval
gas limit.  Stated on an environment whose nonce fetch and broadcast
succeed (the transaction is counted as sent even if the receipt later
reports a revert). -/
theorem c4_approve_exact_amount (env : ApproveEnv) (tracker : Tracker)
    (walletAddr tokenAddr spender : String) (amountWei : Nat) (p : Int) (hash : String)
    (hstop : env.shouldStop = false)
    (hvalid : env.addrValid = true)
    (hpend : env.pending = Except.ok p)
    (hsend : env.send = Except.ok hash) :
    (amountWei ≤ env.allowance →
      approveToken env tracker walletAddr tokenAddr spender amountWei =
        (Except.ok (), [], tracker)) ∧
    (env.allowance < amountWei →
      ((approveToken env tracker walletAddr tokenAddr spender amountWei).2.1.map
          (fun tx => (tx.toAddr, tx.data, tx.gasLimit))) =
        [(tokenAddr, TxData.approve spender amountWei, 100000)]) := by
  constructor
  · intro hge
    simp [approveToken, ge_iff_le, hge]
  · intro hlt
    have hnle : ¬ (amountWei ≤ env.allowance) := not_le.mpr hlt
    cases hws : env.waitStatus with
    | error e =>
      simp [approveToken, getNextNonce, ge_iff_le, hnle, hstop, hvalid, hpend, hsend, hws]
    | ok s =>
      by_cases hs : s = 0
      · simp [approveToken, getNextNonce, ge_iff_le, hnle, hstop, hvalid, hpend, hsend, hws, hs]
      · simp [approveToken, getNextNonce, ge_iff_le, hnle, hstop, hvalid, hpend, hsend, hws, hs]

/-- Claim C4 witness: with allowance 3, requesting 2 sends nothing and
requesting 5 sends exactly one `approve` for 5 with gas limit 100000. -/
theorem c4_witness :
    approveToken approveEnvC4 [] "0xAb" WETH_ADDRESS STAKE_CONTRACT_ADDRESS 2 =
      (Except.ok (), [], []) ∧
    ((approveToken approveEnvC4 [] "0xAb" WETH_ADDRESS STAKE_CONTRACT_ADDRESS 5).2.1.map
        (fun tx => (tx.toAddr, tx.data, tx.gasLimit))) =
      [(WETH_ADDRESS, TxData.approve STAKE_CONTRACT_ADDRESS 5, 100000)] :=
  ⟨(c4_approve_exact_amount approveEnvC4 [] "0xAb" WETH_ADDRESS STAKE_CONTRACT_ADDRESS 2 2
      "0xdddd" rfl rfl rfl rfl).1 (by decide),
   (c4_approve_exact_amount approveEnvC4 [] "0xAb" WETH_ADDRESS STAKE_CONTRACT_ADDRESS 5 2
      "0xdddd" rfl rfl rfl rfl).2 (by decide)⟩

/-! ### Claim C5 -/

/-- Claim C5, counterexample: a fee-data query that succeeds and reports
both `maxFeePerGas` (value 0) and `maxPriorityFeePerGas` (value 1) does
not produce dynamic (type 2) parameters as the claim states: the JavaScript
`&&` at src/index.js line 343 treats the reported `0n` as falsy, so
`getFeeParams` returns the legacy 1-gwei default instead. -/
theorem c5_counterexample_zero_fee :
    getFeeParams (Except.ok ⟨some 0, some 1, none⟩) = FeeParams.legacy oneGwei := rfl

/-- Claim C5 (amended): `getFeeParams` never propagates an error.  On a
query error it returns the 1-gwei legacy default; on success it returns
dynamic (type 2) parameters exactly when both `maxFeePerGas` and
`maxPriorityFeePerGas` are reported as nonzero values (JavaScript
truthiness treats a reported zero as absent), and legacy (type 0)
parameters otherwise, with the reported gasPrice when it is nonzero and the
1-gwei floor when gasPrice is absent or zero. -/
theorem c5_fee_params_amended (e : String) (fd : FeeData) (mf mp g : Nat) :
    getFeeParams (Except.error e) = FeeParams.legacy oneGwei ∧
    (fd.maxFeePerGas = some mf → mf ≠ 0 → fd.maxPriorityFeePerGas = some mp → mp ≠ 0 →
      getFeeParams (Except.ok fd) = FeeParams.dynamic mf mp) ∧
    ((jsTruthyFee fd.maxFeePerGas && jsTruthyFee fd.maxPriorityFeePerGas) = false →
      getFeeParams (Except.ok fd) = FeeParams.legacy (jsOrNat fd.gasPrice oneGwei)) ∧
    (fd.gasPrice = some g → g ≠ 0 → jsOrNat fd.gasPrice oneGwei = g) ∧
    (fd.gasPrice = none → jsOrNat fd.gasPrice oneGwei = oneGwei) ∧
    (fd.gasPrice = some 0 → jsOrNat fd.gasPrice oneGwei = oneGwei) := by
  refine ⟨rfl, ?_, ?_, ?_, ?_, ?_⟩
  · intro h1 h2 h3 h4
    simp [getFeeParams, jsTruthyFee, h1, h3, h2, h4]
  · intro hb
    simp [getFeeParams, hb]
  · intro hg hne
    simp [jsOrNat, hg, hne]
  · intro hg
    simp [jsOrNat, hg]
  · intro hg
    simp [jsOrNat, hg]

/-- Claim C5 witness: concrete fee-data inputs for each branch — a query
error gives the 1-gwei legacy default; nonzero 7/2 dynamic fees give
`dynamic 7 2`; a legacy-only report with gasPrice 5 gives `legacy 5`; an
all-null report gives the 1-gwei legacy floor. -/
theorem c5_witness :
    getFeeParams (Except.error "boom") = FeeParams.legacy oneGwei ∧
    getFeeParams (Except.ok ⟨some 7, some 2, some 5⟩) = FeeParams.dynamic 7 2 ∧
    getFeeParams (Except.ok ⟨none, none, some 5⟩) = FeeParams.legacy 5 ∧
    getFeeParams (Except.ok ⟨none, none, none⟩) = FeeParams.legacy oneGwei := by
  refine ⟨(c5_fee_params_amended "boom" ⟨some 7, some 2, some 5⟩ 7 2 5).1,
    (c5_fee_params_amended "boom" ⟨some 7, some 2, some 5⟩ 7 2 5).2.1 rfl (by decide) rfl
      (by decide), ?_, ?_⟩
  · have h3 := (c5_fee_params_amended "boom" ⟨none, none, some 5⟩ 7 2 5).2.2.1 (by decide)
    have h4 := (c5_fee_params_amended "boom" ⟨none, none, some 5⟩ 7 2 5).2.2.2.1 rfl
      (by decide)
    rw [h4] at h3
    exact h3
  · have h3 := (c5_fee_params_amended "boom" ⟨none, none, none⟩ 7 2 5).2.2.1 (by decide)
    have h4 := (c5_fee_params_amended "boom" ⟨none, none, none⟩ 7 2 5).2.2.2.2.1 rfl
    rw [h4] at h3
    exact h3

/-! ### Claim C6 -/

/-- Claim C6: every balance precondition check rejects exactly when the
relevant balance is strictly below the requirement (so equality is
accepted): `performStake` raises the WETH-insufficiency error iff
`wethBalance < amountWei` and (when that passes) the gas-insufficiency
error iff `ethBalance < gasFee * 650000`; and `performWrap` raises one of
its two native-balance errors iff `ethBalance < amountWei + gasFee *
100000`, the combined amount-plus-gas requirement.  Stated on environments
whose external broadcast and confirmation succeed and whose allowance
already covers the stake. -/
theorem c6_balance_boundaries (env : StakeEnv) (aenv : ApproveEnv) (wenv : WrapEnv)
    (tracker wtracker : Tracker) (chainId wchainId : Nat)
    (walletAddr wwalletAddr : String) (amountWei wamountWei : Nat)
    (p q : Int) (hash whash : String)
    (ha : amountWei ≤ aenv.allowance)
    (hstop : env.shouldStop = false) (hvalid : env.addrValid = true)
    (hpend : env.pending = Except.ok p) (hsend : env.send = Except.ok hash)
    (hwait : env.waitStatus = Except.ok 1)
    (wstop : wenv.shouldStop = false) (wvalid : wenv.addrValid = true)
    (wpend : wenv.pending = Except.ok q) (wsend : wenv.send = Except.ok whash)
    (wwait : wenv.waitStatus = Except.ok 1) :
    ((performStake env aenv tracker chainId walletAddr amountWei).1 =
        Except.error "Insufficient WETH balance" ↔ env.wethBalance < amountWei) ∧
    (amountWei ≤ env.wethBalance →
      ((performStake env aenv tracker chainId walletAddr amountWei).1 =
          Except.error "Insufficient ETH for gas" ↔
        env.ethBalance < gasFeeOf (getFeeParams env.feeData) * 650000)) ∧
    (((performWrap wenv wtracker wchainId wwalletAddr wamountWei).1 =
          Except.error "Insufficient ETH balance" ∨
      (performWrap wenv wtracker wchainId wwalletAddr wamountWei).1 =
          Except.error "Insufficient ETH for amount + gas") ↔
      wenv.ethBalance < wamountWei + gasFeeOf (getFeeParams wenv.feeData) * 100000) := by
  have hstake : ((performStake env aenv tracker chainId walletAddr amountWei).1 =
        Except.error "Insufficient WETH balance" ↔ env.wethBalance < amountWei) ∧
      (amountWei ≤ env.wethBalance →
        ((performStake env aenv tracker chainId walletAddr amountWei).1 =
            Except.error "Insufficient ETH for gas" ↔
          env.ethBalance < gasFeeOf (getFeeParams env.feeData) * 650000)) := by
    by_cases hwb : env.wethBalance < amountWei
    · have hres : performStake env aenv tracker chainId walletAddr amountWei =
          (Except.error "Insufficient WETH balance", [], tracker) := by
        simp [performStake, hwb]
      refine ⟨by simp [hres, hwb], fun h => absurd hwb (not_lt.mpr h)⟩
    · by_cases hgas : env.ethBalance < gasFeeOf (getFeeParams env.feeData) * 650000
      · have hres : performStake env aenv tracker chainId walletAddr amountWei =
            (Except.error "Insufficient ETH for gas", [], tracker) := by
          simp [performStake, approveToken, ge_iff_le, ha, hwb, hgas]
        have hne : ("Insufficient ETH for gas" : String) ≠ "Insufficient WETH balance" := by
          decide
        exact ⟨by simp [hres, hne, hwb], fun _ => by simp [hres, hgas]⟩
      · have hres : (performStake env aenv tracker chainId walletAddr amountWei).1 =
            Except.ok () := by
          simp [performStake, approveToken, getNextNonce, ge_iff_le, ha, hwb, hgas,
            hstop, hvalid, hpend, hsend, hwait]
        exact ⟨by simp [hres, hwb], fun _ => by simp [hres, hgas]⟩
  refine ⟨hstake.1, hstake.2, ?_⟩
  by_cases h1 : wenv.ethBalance < wamountWei
  · have hres : performWrap wenv wtracker wchainId wwalletAddr wamountWei =
        (Except.error "Insufficient ETH balance", [], wtracker) := by
      simp [performWrap, h1]
    have hlt : wenv.ethBalance < wamountWei + gasFeeOf (getFeeParams wenv.feeData) * 100000 :=
      lt_of_lt_of_le h1 (Nat.le_add_right _ _)
    simp [hres, hlt]
  · by_cases h2 : wenv.ethBalance < wamountWei + gasFeeOf (getFeeParams wenv.feeData) * 100000
    · have hres : performWrap wenv wtracker wchainId wwalletAddr wamountWei =
          (Except.error "Insufficient ETH for amount + gas", [], wtracker) := by
        simp [performWrap, h1, h2]
      simp [hres, h2]
    · have hres : (performWrap wenv wtracker wchainId wwalletAddr wamountWei).1 =
          Except.ok () := by
        simp [performWrap, getNextNonce, h1, h2, wstop, wvalid, wpend, wsend, wwait]
      simp [hres, h2]

/-- Claim C6 witness: at the exact boundaries the checks accept — a stake
of 5 with WETH balance exactly 5 and ETH balance exactly `1 gwei * 650000`
raises neither insufficiency error, and a wrap of 5 with ETH balance
exactly `5 + 1 gwei * 100000` is not rejected while one wei less is. -/
theorem c6_witness :
    ((performStake stakeEnvC6 approveEnvC6 [] 17000 "0xAb" 5).1 =
        Except.error "Insufficient WETH balance" ↔ (5 : Nat) < 5) ∧
    ¬ ((performWrap wrapEnvC6 [] 17000 "0xAb" 5).1 =
          Except.error "Insufficient ETH balance" ∨
        (performWrap wrapEnvC6 [] 17000 "0xAb" 5).1 =
          Except.error "Insufficient ETH for amount + gas") ∧
    ((performWrap wrapEnvC6b [] 17000 "0xAb" 5).1 =
          Except.error "Insufficient ETH balance" ∨
      (performWrap wrapEnvC6b [] 17000 "0xAb" 5).1 =
          Except.error "Insufficient ETH for amount + gas") := by
  have hs := c6_balance_boundaries stakeEnvC6 approveEnvC6 wrapEnvC6 [] [] 17000 17000
    "0xAb" "0xAb" 5 5 2 2 "0xeeee" "0xeee3" (by decide) rfl rfl rfl rfl rfl rfl rfl rfl rfl rfl
  have hb := c6_balance_boundaries stakeEnvC6 approveEnvC6 wrapEnvC6b [] [] 17000 17000
    "0xAb" "0xAb" 5 5 2 2 "0xeeee" "0xeee3" (by decide) rfl rfl rfl rfl rfl rfl rfl rfl rfl rfl
  refine ⟨hs.1, ?_, hb.2.2.mpr (by decide)⟩
  intro h
  have := hs.2.2.mp h
  revert this
  decide

/-! ### Claim C7 -/

/-- Claim C7: with 2 wallets and configuration `stakeRepetitions = 1`,
`unstakeRepetitions = 0`, `claimRepetitions = 0`,
`wethStakeRange = {min: 0.01, max: 0.01}`, one cycle performs exactly two
stake attempts, each for amount 0.0100 (100 units of 10^-4), in wallet
registration order with the fixed 10-second delay between wallet 1 and
wallet 2, and issues no unstake and no claim attempts; whatever the random
draws and whatever each attempt's outcome, a failure only adds a log event
and the cycle continues. -/
theorem c7_two_wallet_cycle (ro : RandomOracle) (oc : AttemptOutcomes) :
    runDailyActivity 2
      ⟨1, 0, 0, ⟨1/100, 1/100⟩, ⟨1/100, 2/100⟩, 24⟩ ro oc =
    Event.stakeAttempt 0 0 100 ::
      ((if oc.stakeOk 0 0 then [] else [Event.failLog OpKind.stake 0 0]) ++
       (Event.delayMs 10000 ::
        Event.stakeAttempt 1 0 100 ::
          (if oc.stakeOk 1 0 then [] else [Event.failLog OpKind.stake 1 0]))) := by
  simp [runDailyActivity, runDailyActivityAux, accountEvents, stakeLoopAux,
    unstakeLoopAux, claimLoopAux, toFixed4Units_const]
  norm_num

/-! ### Claim C8 -/

/-- Claim C8, counterexample: a stored repetition count of 0 does not load
as 0.  `Number(config.stakeRepetitions) || 1` (src/index.js lines 82-84)
treats the stored 0 as falsy and applies the default 1, so the persisted
value 0 is not preserved. -/
theorem c8_counterexample_zero_stored :
    loadConfigReps ⟨some 0, some 1, some 1⟩ = (1, 1, 1) ∧
    (loadConfigReps ⟨some 0, some 1, some 1⟩).1 ≠ 0 := by
  exact ⟨rfl, by decide⟩

/-- Claim C8 (amended): for each of the three repetition-count fields,
loading the persisted configuration yields exactly the stored value for
every stored nonzero integer; the default 1 is applied when the value is
absent and also when the stored value is 0 (the loader's falsy-or-default
coercion maps a stored 0 to 1). -/
theorem c8_load_reps_amended (s u c : Option Int) (v : Int) (hv : v ≠ 0) :
    (loadConfigReps ⟨some v, u, c⟩).1 = v ∧
    (loadConfigReps ⟨s, some v, c⟩).2.1 = v ∧
    (loadConfigReps ⟨s, u, some v⟩).2.2 = v ∧
    (loadConfigReps ⟨none, u, c⟩).1 = 1 ∧
    (loadConfigReps ⟨s, none, c⟩).2.1 = 1 ∧
    (loadConfigReps ⟨s, u, none⟩).2.2 = 1 ∧
    (loadConfigReps ⟨some 0, u, c⟩).1 = 1 ∧
    (loadConfigReps ⟨s, some 0, c⟩).2.1 = 1 ∧
    (loadConfigReps ⟨s, u, some 0⟩).2.2 = 1 := by
  simp [loadConfigReps, jsOrInt, hv]

/-- Claim C8 witness: the amended theorem at the stored value 2 — each of
the three fields loads as 2 when stored as 2, as 1 when absent, and as 1
when stored as 0. -/
theorem c8_witness :
    (loadConfigReps ⟨some 2, none, none⟩).1 = 2 ∧
    (loadConfigReps ⟨none, some 2, none⟩).2.1 = 2 ∧
    (loadConfigReps ⟨none, none, some 2⟩).2.2 = 2 ∧
    (loadConfigReps ⟨none, some 2, none⟩).1 = 1 ∧
    (loadConfigReps ⟨none, none, none⟩).2.1 = 1 ∧
    (loadConfigReps ⟨none, some 2, none⟩).2.2 = 1 ∧
    (loadConfigReps ⟨some 0, none, none⟩).1 = 1 ∧
    (loadConfigReps ⟨none, some 0, none⟩).2.1 = 1 ∧
    (loadConfigReps ⟨none, none, some 0⟩).2.2 = 1 :=
  ⟨(c8_load_reps_amended none none none 2 (by decide)).1,
   (c8_load_reps_amended none none none 2 (by decide)).2.1,
   (c8_load_reps_amended none none none 2 (by decide)).2.2.1,
   (c8_load_reps_amended none none none 2 (by decide)).2.2.2.1,
   (c8_load_reps_amended none none none 2 (by decide)).2.2.2.2.1,
   (c8_load_reps_amended none none none 2 (by decide)).2.2.2.2.2.1,
   (c8_load_reps_amended none none none 2 (by decide)).2.2.2.2.2.2.1,
   (c8_load_reps_amended none none none 2 (by decide)).2.2.2.2.2.2.2.1,
   (c8_load_reps_amended none none none 2 (by decide)).2.2.2.2.2.2.2.2⟩

/-! ### Claim C9 -/

/-- Claim C9, counterexample: an empty credential file is not fatal to the
process.  `loadAccounts` catches the "No private keys found" error, logs it
and leaves the account list empty (src/index.js lines 194-197);
initialization continues with the process running, and a later cycle start
with no accounts aborts with a log instead of exiting. -/
theorem c9_counterexample_not_fatal :
    loadAccounts (Except.ok "") = ([], true) ∧
    initializeOutcome (Except.ok "") = (ProcessOutcome.keepsRunning, []) ∧
    runDailyActivityGate [] = CycleStart.abortedNoAccounts :=
  ⟨rfl, rfl, rfl⟩

/-- Claim C9 (amended): finding no credentials (missing file or no
non-empty line) is a logged startup error, not a fatal one: `loadAccounts`
catches it, emits the failure log and leaves the account list empty;
initialization always leaves the process running; and starting the daily
cycle with an empty account list logs and aborts the cycle without
terminating the process. -/
theorem c9_no_credentials_amended (fileRead : Except String String) :
    initializeOutcome fileRead = (ProcessOutcome.keepsRunning, (loadAccounts fileRead).1) ∧
    ((loadAccounts fileRead).1 = [] → (loadAccounts fileRead).2 = true) ∧
    ((loadAccounts fileRead).1 = [] →
      runDailyActivityGate (loadAccounts fileRead).1 = CycleStart.abortedNoAccounts) := by
  refine ⟨rfl, ?_, ?_⟩
  · intro h
    cases fileRead with
    | error e => rfl
    | ok data =>
      by_cases hp : (parseAccounts data).isEmpty
      · simp [loadAccounts, hp]
      · exfalso
        simp [loadAccounts, hp] at h
        rw [h] at hp
        exact hp rfl
  · intro h
    simp [runDailyActivityGate, h]

/-- Claim C9 witness: the amended theorem at a credential file holding only
a blank line — the account list is empty, the failure was logged, the
process keeps running and a cycle start aborts. -/
theorem c9_witness :
    initializeOutcome (Except.ok " \n") =
      (ProcessOutcome.keepsRunning, (loadAccounts (Except.ok " \n")).1) ∧
    (loadAccounts (Except.ok " \n")).2 = true ∧
    runDailyActivityGate (loadAccounts (Except.ok " \n")).1 =
      CycleStart.abortedNoAccounts :=
  ⟨(c9_no_credentials_amended (Except.ok " \n")).1,
   (c9_no_credentials_amended (Except.ok " \n")).2.1 rfl,
   (c9_no_credentials_amended (Except.ok " \n")).2.2 rfl⟩

/-! ### Claim C10 -/

/-- Claim C10: the nonce tracker is keyed by the raw `chainId_address`
string with no case normalization.  In a single `performStake` run for the
mixed-case wallet address "0xAb" (allowance below the amount, so the
approval step runs) the approval reserves its nonce under the checksummed
key "17000_0xAb" while the stake transaction reserves under the lowercased
key "17000_0xab": the two keys differ, both tracker entries exist
afterwards, and both transactions were sent with the same nonce 7 — the
stake reservation did not observe the approval's recorded `lastReserved`
(it would otherwise have used 8). -/
theorem c10_case_sensitive_tracker_keys :
    nonceKey 17000 "0xAb" ≠ nonceKey 17000 (lowerStr "0xAb") ∧
    performStake stakeEnvC10 approveEnvC10 [] 17000 "0xAb" 5 =
      (Except.ok (),
       [⟨WETH_ADDRESS, TxData.approve STAKE_CONTRACT_ADDRESS 5, 0, 100000, 7,
          FeeParams.legacy oneGwei⟩,
        ⟨STAKE_CONTRACT_ADDRESS, TxData.deposit WETH_ADDRESS 5, 0, 650000, 7,
          FeeParams.legacy oneGwei⟩],
       [(nonceKey 17000 "0xAb", 7), (nonceKey 17000 (lowerStr "0xAb"), 7)]) := by
  exact ⟨by decide, rfl⟩

end EkoxBot
